import Mathlib

/-!
Shallow embedding of the trafficmanager repository (fog.py, cloud.py,
models.py, app.py) and verification of its specification claims.

Vehicle counts are Python ints, embedded as `Int`.  The numpy mean of
consecutive differences is exact rational arithmetic, embedded as `Rat`.
-/

namespace Traffic

/-- Congestion level strings "Low" / "Medium" / "High" returned by
`FogNode._calculate_congestion` in fog.py. -/
inductive Congestion
  | Low
  | Medium
  | High
deriving DecidableEq, Repr

open Congestion

/-- fog.py `FogNode._calculate_congestion` (lines 134-150):
`if vehicle_count < 30: "Low" elif vehicle_count < 70: "Medium" else: "High"`. -/
def calculateCongestion (vehicle_count : Int) : Congestion :=
  if vehicle_count < 30 then Low
  else if vehicle_count < 70 then Medium
  else High

/-- fog.py `FogNode._should_send_to_cloud` (lines 152-170):
returns True when the congestion level is "High", else True when
`vehicle_count > 60`, else False. -/
def shouldSendToCloud (congestion_level : Congestion) (vehicle_count : Int) : Bool :=
  if congestion_level = High then true
  else if vehicle_count > 60 then true
  else false

/-- numpy `np.diff`: consecutive differences of a sequence. -/
def npDiff : List Int → List Int
  | a :: b :: rest => (b - a) :: npDiff (b :: rest)
  | _ => []

/-- numpy `np.mean`: sum divided by length, as an exact rational.
For the lists reachable in `_predict_congestion` the list is nonempty and
its length is at most 4, so float64 and exact rational arithmetic agree
after the final truncation to an integer. -/
def npMean (l : List Int) : Rat :=
  (l.sum : Rat) / (l.length : Rat)

/-- Python `int(...)` on a float value: truncation toward zero. -/
def pyInt (q : Rat) : Int :=
  if 0 ≤ q then ⌊q⌋ else ⌈q⌉

/-- fog.py lines 185-186: `if len(self.history) > 20: self.history = self.history[-20:]`. -/
def evict20 (history : List Int) : List Int :=
  if history.length > 20 then history.drop (history.length - 20) else history

/-- Python `history[-5:]`: the last five entries (or all of them when fewer). -/
def lastFive (history : List Int) : List Int :=
  history.drop (history.length - 5)

/-- fog.py `FogNode._predict_congestion` (lines 172-203), made explicit in the
node's history state: append the count, evict to at most 20 entries, and
either echo the current classification (fewer than 3 entries) or classify
the trend-adjusted count clamped to [0, 120].  Returns the new history
together with the predicted level. -/
def predictCongestion (history : List Int) (vehicle_count : Int) :
    List Int × Congestion :=
  let history1 := evict20 (history ++ [vehicle_count])
  if history1.length < 3 then
    (history1, calculateCongestion vehicle_count)
  else
    let avg_trend := npMean (npDiff (lastFive history1))
    let predicted_count := (vehicle_count : Rat) + avg_trend
    let clamped := max 0 (min predicted_count 120)
    (history1, calculateCongestion (pyInt clamped))

/-- The history state reached after feeding a sequence of readings to
`_predict_congestion`, starting from the node's initial empty history. -/
def runHistory (counts : List Int) : List Int :=
  counts.foldl (fun h c => (predictCongestion h c).1) []

end Traffic

namespace Traffic

/-- C1: for every integer vehicle_count, `_calculate_congestion` returns
Low iff count < 30, Medium iff 30 ≤ count < 70, and High iff count ≥ 70
(so exactly 30 is Medium and exactly 70 is High). -/
theorem calculateCongestion_thresholds (n : Int) :
    (calculateCongestion n = Congestion.Low ↔ n < 30) ∧
    (calculateCongestion n = Congestion.Medium ↔ 30 ≤ n ∧ n < 70) ∧
    (calculateCongestion n = Congestion.High ↔ 70 ≤ n) := by
  unfold calculateCongestion
  split_ifs with h1 h2 <;>
    refine ⟨⟨fun _ => ?_, fun _ => ?_⟩, ⟨fun _ => ?_, fun _ => ?_⟩,
      ⟨fun _ => ?_, fun _ => ?_⟩⟩ <;> first | rfl | omega | simp_all

/-- C2: the forward decision computed on a reading is true iff the
classification of its count is High or the count exceeds 60; in
particular counts 25 and 45 are not forwarded while 65 and 90 are. -/
theorem shouldSendToCloud_spec :
    (∀ n : Int, shouldSendToCloud (calculateCongestion n) n = true ↔
      (calculateCongestion n = Congestion.High ∨ n > 60)) ∧
    shouldSendToCloud (calculateCongestion 25) 25 = false ∧
    shouldSendToCloud (calculateCongestion 45) 45 = false ∧
    shouldSendToCloud (calculateCongestion 65) 65 = true ∧
    shouldSendToCloud (calculateCongestion 90) 90 = true := by
  refine ⟨fun n => ?_, by decide, by decide, by decide, by decide⟩
  unfold shouldSendToCloud calculateCongestion
  split_ifs <;> simp_all

/-- Both branches of `_predict_congestion` leave the same (appended and
evicted) history in the node state. -/
theorem predictCongestion_fst (h : List Int) (c : Int) :
    (predictCongestion h c).1 = evict20 (h ++ [c]) := by
  simp only [predictCongestion]
  split <;> rfl

/-- Eviction always leaves at most 20 entries. -/
theorem evict20_length_le (l : List Int) : (evict20 l).length ≤ 20 := by
  by_cases hl : l.length > 20
  · rw [evict20, if_pos hl, List.length_drop]
    omega
  · rw [evict20, if_neg hl]
    omega

/-- The clamp `max(0, min(x, 120))` followed by Python `int` truncation
lands in `[0, 120]`. -/
theorem pyInt_clamp_mem (q : Rat) :
    0 ≤ pyInt (max 0 (min q 120)) ∧ pyInt (max 0 (min q 120)) ≤ 120 := by
  have h0 : (0 : Rat) ≤ max 0 (min q 120) := le_max_left _ _
  have h1 : max 0 (min q 120) ≤ 120 := max_le (by norm_num) (min_le_right _ _)
  rw [pyInt, if_pos h0]
  refine ⟨Int.floor_nonneg.mpr h0, ?_⟩
  have h2 := Int.floor_le_floor h1
  simpa using h2

/-- C3: `_predict_congestion` appends the count and evicts the history to
at most 20 entries; with fewer than 3 entries the prediction echoes the
current classification; otherwise the mean of consecutive differences
over the last 5 entries is added to the count, the sum is clamped to
[0, 120], and the prediction classifies that clamped value, which is
always between 0 and 120 regardless of input magnitude. -/
theorem predictCongestion_spec (h : List Int) (c : Int) :
    (predictCongestion h c).1 = evict20 (h ++ [c]) ∧
    ((evict20 (h ++ [c])).length < 3 →
      (predictCongestion h c).2 = calculateCongestion c) ∧
    (3 ≤ (evict20 (h ++ [c])).length →
      ∃ v : Int, 0 ≤ v ∧ v ≤ 120 ∧
        v = pyInt (max 0 (min ((c : Rat) +
            npMean (npDiff (lastFive (evict20 (h ++ [c]))))) 120)) ∧
        (predictCongestion h c).2 = calculateCongestion v) := by
  refine ⟨?_, ?_, ?_⟩
  · simp only [predictCongestion]
    split <;> rfl
  · intro hlen
    simp only [predictCongestion]
    rw [if_pos hlen]
  · intro hlen
    have hge : ¬ (evict20 (h ++ [c])).length < 3 := by omega
    refine ⟨_, (pyInt_clamp_mem _).1, (pyInt_clamp_mem _).2, rfl, ?_⟩
    simp only [predictCongestion]
    rw [if_neg hge]

/-- Witness for C3: both branches exercised at concrete inputs. -/
theorem predictCongestion_spec_witness :
    (predictCongestion [] 10).2 = calculateCongestion 10 ∧
    ∃ v : Int, 0 ≤ v ∧ v ≤ 120 ∧
      v = pyInt (max 0 (min ((40 : Rat) +
          npMean (npDiff (lastFive (evict20 ([10, 20, 30] ++ [40]))))) 120)) ∧
      (predictCongestion [10, 20, 30] 40).2 = calculateCongestion v :=
  ⟨(predictCongestion_spec [] 10).2.1 (by decide),
   (predictCongestion_spec [10, 20, 30] 40).2.2 (by decide)⟩

/-- C8: the history window holds at most 20 entries at every observable
point; with a full window of 20, an append evicts exactly the oldest
entry (FIFO); feeding 25 sequential readings from the initial empty
history retains exactly the most recent 20 counts in order. -/
theorem historyWindow_spec :
    (∀ (h : List Int) (c : Int), ((predictCongestion h c).1).length ≤ 20) ∧
    (∀ (h : List Int) (c : Int), h.length = 20 →
      (predictCongestion h c).1 = h.tail ++ [c]) ∧
    runHistory [1, 2, 3, 4, 5, 6, 7, 8, 9, 10, 11, 12, 13,
        14, 15, 16, 17, 18, 19, 20, 21, 22, 23, 24, 25] =
      [6, 7, 8, 9, 10, 11, 12, 13, 14, 15,
        16, 17, 18, 19, 20, 21, 22, 23, 24, 25] := by
  refine ⟨fun h c => ?_, fun h c h20 => ?_, ?_⟩
  · rw [predictCongestion_fst]
    exact evict20_length_le _
  · rw [predictCongestion_fst]
    have hlen : (h ++ [c]).length = 21 := by simp [h20]
    rw [evict20, if_pos (by omega), hlen]
    cases h with
    | nil => simp at h20
    | cons x t => simp
  · set_option maxRecDepth 4000 in decide

/-- Witness for C8: the FIFO clause applied to a concrete full window. -/
theorem historyWindow_spec_witness :
    (predictCongestion [1, 2, 3, 4, 5, 6, 7, 8, 9, 10, 11, 12, 13, 14,
        15, 16, 17, 18, 19, 20] 21).1 =
      List.tail [1, 2, 3, 4, 5, 6, 7, 8, 9, 10, 11, 12, 13, 14,
        15, 16, 17, 18, 19, 20] ++ [21] :=
  historyWindow_spec.2.1 _ 21 (by decide)

end Traffic

namespace Traffic

/-- models.py `FogStats` row (lines 61-73): the three counters, all of
which default to 0 on creation.  `node_id` and `last_updated` carry no
information relevant to the counter claims. -/
structure FogStats where
  total_processed : Nat
  forwarded_to_cloud : Nat
  filtered_locally : Nat
deriving DecidableEq, Repr

/-- A freshly created `FogStats(node_id=...)` row: counters default to 0. -/
def FogStats.init : FogStats := ⟨0, 0, 0⟩

/-- fog.py lines 97-102, the counter update performed on an existing
`fog_stats` row within one `process_edge_data` call: `total_processed`
gains 1 and exactly one of `forwarded_to_cloud` / `filtered_locally`
gains 1, according to `send_to_cloud`. -/
def processEdgeStats (s : FogStats) (send_to_cloud : Bool) : FogStats :=
  { total_processed := s.total_processed + 1
    forwarded_to_cloud :=
      if send_to_cloud then s.forwarded_to_cloud + 1 else s.forwarded_to_cloud
    filtered_locally :=
      if send_to_cloud then s.filtered_locally else s.filtered_locally + 1 }

/-- fog.py lines 96-104 as written: the whole counter update sits behind
`if fog_stats:`.  When the row is absent — reachable because
/api/clear-logs (app.py lines 246-264) deletes every `FogStats` row while
the fog node keeps its memoized flag, so the row is never recreated — the
reading is still processed and logged but no counter changes. -/
def processEdgeStatsRow (row : Option FogStats) (send_to_cloud : Bool) :
    Option FogStats :=
  match row with
  | some s => some (processEdgeStats s send_to_cloud)
  | none => none

/-- Counter state after a sequence of forwarding decisions, starting from
a fresh row. -/
def runStats (decisions : List Bool) : FogStats :=
  decisions.foldl processEdgeStats FogStats.init

/-- The per-step counter update preserves `total = forwarded + filtered`. -/
theorem processEdgeStats_preserves (s : FogStats) (b : Bool)
    (hs : s.total_processed = s.forwarded_to_cloud + s.filtered_locally) :
    (processEdgeStats s b).total_processed =
      (processEdgeStats s b).forwarded_to_cloud +
        (processEdgeStats s b).filtered_locally := by
  cases b <;> simp [processEdgeStats, hs] <;> omega

/-- Counter-sum invariant along any run from any consistent start state. -/
theorem runStats_aux (ds : List Bool) (s : FogStats)
    (hs : s.total_processed = s.forwarded_to_cloud + s.filtered_locally) :
    (ds.foldl processEdgeStats s).total_processed =
      (ds.foldl processEdgeStats s).forwarded_to_cloud +
        (ds.foldl processEdgeStats s).filtered_locally := by
  induction ds generalizing s with
  | nil => exact hs
  | cons b t ih => exact ih _ (processEdgeStats_preserves s b hs)

/-- C4: at every state reachable by `process_edge_data` counter updates,
`total_processed = forwarded_to_cloud + filtered_locally`; when the stats
row exists, each processed reading increments `total_processed` by 1
together with exactly one of the other two counters, and all three are
monotonically non-decreasing.  The last conjunct evaluates the code on the
failing path: with the row absent (deleted by /api/clear-logs after the
initialization flag is set), a processed reading updates no counter at
all, contradicting the per-reading increment the claim states. -/
theorem fogStats_invariant :
    (∀ ds : List Bool, (runStats ds).total_processed =
      (runStats ds).forwarded_to_cloud + (runStats ds).filtered_locally) ∧
    (∀ (s : FogStats) (b : Bool),
      (processEdgeStats s b).total_processed = s.total_processed + 1 ∧
      (processEdgeStats s b).forwarded_to_cloud =
        (if b then s.forwarded_to_cloud + 1 else s.forwarded_to_cloud) ∧
      (processEdgeStats s b).filtered_locally =
        (if b then s.filtered_locally else s.filtered_locally + 1) ∧
      s.total_processed ≤ (processEdgeStats s b).total_processed ∧
      s.forwarded_to_cloud ≤ (processEdgeStats s b).forwarded_to_cloud ∧
      s.filtered_locally ≤ (processEdgeStats s b).filtered_locally) ∧
    (∀ b : Bool, processEdgeStatsRow none b = none) := by
  refine ⟨fun ds => runStats_aux ds FogStats.init rfl, fun s b => ?_, fun b => rfl⟩
  cases b <;> simp [processEdgeStats]

/-- Congestion actions chosen by cloud.py `perform_analytics`. -/
inductive CloudAction
  | ALERT_TRAFFIC_CONTROL
  | MONITOR_CLOSELY
  | NO_ACTION
deriving DecidableEq, Repr

/-- cloud.py `perform_analytics` lines 85-93: the fixed decision table
selecting `action_required` from the congestion level and vehicle count. -/
def actionRequired (congestion_level : Congestion) (vehicle_count : Int) :
    CloudAction :=
  if congestion_level = Congestion.High ∨ vehicle_count > 80 then
    CloudAction.ALERT_TRAFFIC_CONTROL
  else if congestion_level = Congestion.Medium ∨ vehicle_count > 50 then
    CloudAction.MONITOR_CLOSELY
  else
    CloudAction.NO_ACTION

/-- C6: the cloud action is selected by the fixed decision table —
ALERT_TRAFFIC_CONTROL iff High or count > 80, otherwise MONITOR_CLOSELY
iff Medium or count > 50, otherwise NO_ACTION — and a reading with
vehicle_count = 80 classifies High, is forwarded, and yields
ALERT_TRAFFIC_CONTROL. -/
theorem cloudAction_table :
    (∀ (lvl : Congestion) (n : Int),
      (actionRequired lvl n = CloudAction.ALERT_TRAFFIC_CONTROL ↔
        lvl = Congestion.High ∨ n > 80) ∧
      (actionRequired lvl n = CloudAction.MONITOR_CLOSELY ↔
        ¬(lvl = Congestion.High ∨ n > 80) ∧ (lvl = Congestion.Medium ∨ n > 50)) ∧
      (actionRequired lvl n = CloudAction.NO_ACTION ↔
        ¬(lvl = Congestion.High ∨ n > 80) ∧
          ¬(lvl = Congestion.Medium ∨ n > 50))) ∧
    calculateCongestion 80 = Congestion.High ∧
    shouldSendToCloud (calculateCongestion 80) 80 = true ∧
    actionRequired (calculateCongestion 80) 80 =
      CloudAction.ALERT_TRAFFIC_CONTROL := by
  refine ⟨fun lvl n => ?_, by decide, by decide, by decide⟩
  unfold actionRequired
  split_ifs with h1 h2 <;>
    refine ⟨⟨fun _ => ?_, fun _ => ?_⟩, ⟨fun _ => ?_, fun _ => ?_⟩,
      ⟨fun _ => ?_, fun _ => ?_⟩⟩ <;> first | rfl | tauto

end Traffic

namespace Traffic

/-- The 10 most recently stored records of an insertion-ordered list:
cloud.py line 95, `TrafficLog.query.order_by(timestamp.desc()).limit(10)`.
Order does not matter for the mean, so the last ten in insertion order. -/
def lastTen (logs : List Int) : List Int :=
  logs.drop (logs.length - 10)

/-- Python `round(x, 2)`: rounding to two decimal places.  Ties are
modelled by `round`; none of the claims depends on the tie-breaking
direction. -/
def round2 (q : Rat) : Rat :=
  ((round (q * 100) : Int) : Rat) / 100

/-- Trend label in the analytics payload of cloud.py line 106. -/
inductive Trend
  | increasing
  | decreasing
deriving DecidableEq, Repr

/-- The analytics dictionary built by cloud.py `perform_analytics`
(lines 102-107), restricted to the fields the claims mention. -/
structure Analytics where
  action_required : CloudAction
  average_last_10 : Rat
  trend : Trend
deriving DecidableEq, Repr

/-- cloud.py `perform_analytics` (lines 71-107): selects the action from
the decision table, then averages `vehicle_count` over the 10 most
recently stored records — queried from the database as it is at call
time — falling back to the current value when no records exist; the trend
compares the current count against the unrounded average, while the
reported average is rounded to two decimals. -/
def performAnalytics (logs : List Int) (vehicle_count : Int)
    (congestion_level : Congestion) : Analytics :=
  let recent_logs := lastTen logs
  let average_count : Rat :=
    if recent_logs.isEmpty then (vehicle_count : Rat)
    else (recent_logs.sum : Rat) / (recent_logs.length : Rat)
  { action_required := actionRequired congestion_level vehicle_count
    average_last_10 := round2 average_count
    trend := if (vehicle_count : Rat) > average_count then Trend.increasing
      else Trend.decreasing }

/-- cloud.py `store_data` (lines 19-49): the analytics are computed FIRST
(line 29), and only then is the new record added and committed
(lines 31-45).  `logs` is the list of `vehicle_count` values of all
stored `TrafficLog` records in insertion order. -/
def storeData (logs : List Int) (vehicle_count : Int)
    (congestion_level : Congestion) : List Int × Analytics :=
  let analytics := performAnalytics logs vehicle_count congestion_level
  (logs ++ [vehicle_count], analytics)

/-- Modelled from the claim wording of C5 (refinement target, not from
the code): the rolling average over the most recently stored
min(10, stored_count) records INCLUDING the record just stored, or the
current value alone when no records exist. -/
def claimRollingAverage (logs : List Int) (vehicle_count : Int) : Rat :=
  let stored := logs ++ [vehicle_count]
  let recent := lastTen stored
  if recent.isEmpty then (vehicle_count : Rat)
  else (recent.sum : Rat) / (recent.length : Rat)

end Traffic

namespace Traffic

/-- Counterexample to C5 as stated: with exactly one stored record of
count 0, storing a reading of count 100 returns the rolling average 0
(the mean of the records present BEFORE the insert), not 50 (the mean
including the record just stored, as the claim requires). -/
theorem storeData_average_counterexample :
    (storeData [0] 100 Congestion.High).2.average_last_10 = 0 ∧
    claimRollingAverage [0] 100 = 50 ∧
    ((0 : Rat) ≠ 50) := by
  refine ⟨?_, ?_, by norm_num⟩
  · simp only [storeData, performAnalytics, lastTen, round2]
    norm_num
  · simp only [claimRollingAverage, lastTen]
    norm_num

/-- C5 amended: `store_data` appends the record after computing the
analytics, so the reported rolling average is the two-decimal rounding of
the arithmetic mean of the most recently stored min(10, stored_count)
records EXCLUDING the record being stored (the current value alone when
none exist), and the trend is increasing iff the current count strictly
exceeds that unrounded average. -/
theorem storeData_rollingAverage (logs : List Int) (c : Int)
    (lvl : Congestion) :
    (storeData logs c lvl).1 = logs ++ [c] ∧
    (lastTen logs).length = min logs.length 10 ∧
    ((storeData logs c lvl).2.average_last_10 =
      if logs.isEmpty then round2 (c : Rat)
      else round2 (((lastTen logs).sum : Rat) / ((lastTen logs).length : Rat))) ∧
    ((storeData logs c lvl).2.trend = Trend.increasing ↔
      (c : Rat) > (if logs.isEmpty then (c : Rat)
        else ((lastTen logs).sum : Rat) / ((lastTen logs).length : Rat))) := by
  have hlen : (lastTen logs).length = min logs.length 10 := by
    rw [lastTen, List.length_drop]
    omega
  have hemp : (lastTen logs).isEmpty = logs.isEmpty := by
    rw [Bool.eq_iff_iff]
    simp only [List.isEmpty_iff_length_eq_zero, hlen]
    omega
  refine ⟨rfl, hlen, ?_, ?_⟩
  · simp only [storeData, performAnalytics, hemp]
    by_cases h : logs.isEmpty = true <;> simp [h]
  · simp only [storeData, performAnalytics, hemp]
    by_cases h : logs.isEmpty = true <;>
      · simp only [h, if_true, if_false, Bool.false_eq_true]
        split_ifs with ht <;> simp_all

end Traffic

namespace Traffic

/-- app.py `edge_send_concurrent_data` (lines 436-495): each worker's
per-device pipeline either succeeds with a payload or raises; the
`except` branch (lines 473-475) only writes a console log, so only
successful workers append to `results`.  `outcomes` is the per-device
pipeline outcome in the order the appends happen. -/
def concurrentResults {R E : Type} (outcomes : List (Except E R)) : List R :=
  outcomes.filterMap fun o =>
    match o with
    | Except.ok r => some r
    | Except.error _ => none

/-- Counterexample to C7 as stated: with two requested devices of which
the second fails, the response's results list holds a single entry — the
list is silently shortened and contains no per-device error entry. -/
theorem concurrentResults_counterexample :
    concurrentResults
        [Except.ok (1 : Nat), (Except.error "cloud aggregator failure" : Except String Nat)]
      = [1] ∧
    (concurrentResults
        [Except.ok (1 : Nat), (Except.error "cloud aggregator failure" : Except String Nat)]).length
      ≠ 2 := by
  exact ⟨rfl, by decide⟩

/-- C7 amended: the results list contains exactly the successful devices'
payloads, in order; a failing device contributes no entry at all (its
error goes only to the console log), so the list can be shorter than the
number of requested devices; a failure is isolated in that the other
devices' results are still included unchanged. -/
theorem concurrentResults_spec {R E : Type} (outcomes : List (Except E R)) :
    (concurrentResults outcomes).length ≤ outcomes.length ∧
    (∀ (pre post : List (Except E R)) (e : E),
      outcomes = pre ++ Except.error e :: post →
      concurrentResults outcomes =
        concurrentResults pre ++ concurrentResults post) ∧
    (∀ (pre post : List (Except E R)) (r : R),
      outcomes = pre ++ Except.ok r :: post →
      concurrentResults outcomes =
        concurrentResults pre ++ r :: concurrentResults post) := by
  refine ⟨List.length_filterMap_le _ _, ?_, ?_⟩
  · rintro pre post e rfl
    simp [concurrentResults, List.filterMap_append]
  · rintro pre post r rfl
    simp [concurrentResults, List.filterMap_append]

/-- Witness for C7 amended: a middle failure at a concrete batch leaves
the surrounding successes in place. -/
theorem concurrentResults_spec_witness :
    concurrentResults
        [Except.ok (1 : Nat), (Except.error "boom" : Except String Nat), Except.ok 2] =
      concurrentResults [(Except.ok 1 : Except String Nat)] ++
        concurrentResults [(Except.ok 2 : Except String Nat)] :=
  (concurrentResults_spec _).2.1 [Except.ok 1] [Except.ok 2] "boom" rfl

/-- models.py `FogStats.get_cloud_reduction_percentage` (lines 75-79):
0 when nothing was processed, otherwise the filtered share as a
percentage rounded to two decimals. -/
def getCloudReductionPercentage (s : FogStats) : Rat :=
  if s.total_processed = 0 then 0
  else round2 ((s.filtered_locally : Rat) / (s.total_processed : Rat) * 100)

/-- The dictionary returned by fog.py `get_stats`, restricted to the
fields the claims mention (`node_id` and `last_updated` are strings with
no arithmetic content). -/
structure FogStatsDict where
  total_processed : Nat
  forwarded_to_cloud : Nat
  filtered_locally : Nat
  cloud_reduction_percentage : Rat
deriving DecidableEq, Repr

/-- models.py `FogStats.to_dict` (lines 81-90). -/
def FogStats.toDict (s : FogStats) : FogStatsDict :=
  ⟨s.total_processed, s.forwarded_to_cloud, s.filtered_locally,
    getCloudReductionPercentage s⟩

/-- fog.py `get_stats` (lines 205-223): with a database and an existing
row, the row's dictionary; with no database or no row, all counters and
the percentage are zero. -/
def getStats (row : Option FogStats) : FogStatsDict :=
  match row with
  | some s => s.toDict
  | none => ⟨0, 0, 0, 0⟩

/-- C10: the cloud-reduction percentage is 0 when `total_processed` is 0
(the division is guarded, so the query is total), and otherwise is
`(filtered_locally / total_processed) * 100` rounded to 2 decimals — a
two-decimal value within 1/200 of the exact ratio — and `get_stats`
returns all-zero statistics when no database or no stats row exists. -/
theorem getStats_safe :
    getStats none = ⟨0, 0, 0, 0⟩ ∧
    (∀ s : FogStats, s.total_processed = 0 →
      getCloudReductionPercentage s = 0) ∧
    (∀ s : FogStats, s.total_processed ≠ 0 →
      getCloudReductionPercentage s =
        round2 ((s.filtered_locally : Rat) / (s.total_processed : Rat) * 100) ∧
      ∃ k : Int, getCloudReductionPercentage s = (k : Rat) / 100 ∧
        |getCloudReductionPercentage s -
          (s.filtered_locally : Rat) / (s.total_processed : Rat) * 100| ≤ 1 / 200) ∧
    (∀ s : FogStats, getStats (some s) = s.toDict) := by
  refine ⟨rfl, fun s hs => by rw [getCloudReductionPercentage, if_pos hs],
    fun s hs => ?_, fun s => rfl⟩
  have hpct : getCloudReductionPercentage s =
      round2 ((s.filtered_locally : Rat) / (s.total_processed : Rat) * 100) := by
    rw [getCloudReductionPercentage, if_neg hs]
  set q : Rat := (s.filtered_locally : Rat) / (s.total_processed : Rat) * 100 with hq
  refine ⟨hpct, round (q * 100), ?_, ?_⟩
  · rw [hpct, round2]
  · rw [hpct, round2]
    have habs : |q * 100 - (round (q * 100) : Rat)| ≤ 1 / 2 := abs_sub_round _
    have heq : ((round (q * 100) : Int) : Rat) / 100 - q =
        -((q * 100 - (round (q * 100) : Rat)) / 100) := by ring
    rw [heq, abs_neg, abs_div]
    rw [show |(100 : Rat)| = 100 by norm_num]
    linarith

/-- Witness for C10: the percentage guard and formula at concrete rows. -/
theorem getStats_safe_witness :
    getCloudReductionPercentage ⟨0, 0, 0⟩ = 0 ∧
    getCloudReductionPercentage ⟨4, 1, 3⟩ =
      round2 ((((⟨4, 1, 3⟩ : FogStats).filtered_locally : Rat)) /
        (((⟨4, 1, 3⟩ : FogStats).total_processed : Rat)) * 100) :=
  ⟨getStats_safe.2.1 ⟨0, 0, 0⟩ rfl,
   (getStats_safe.2.2.1 ⟨4, 1, 3⟩ (by decide)).1⟩

end Traffic
